import Mathlib

/-!
Shallow embedding of `src/main.go` of stn1sv/weather-forecast.

Modelling conventions, stated once:
* Go `float64` values are modelled as rationals (`ℚ`); the claims under
  study do not depend on binary floating-point rounding.
* An HTTP response body is modelled without the trailing `"\n"` that Go's
  `http.Error` appends.
* A raw upstream body is modelled as `Option Json`: `some j` is a body
  that is valid JSON with abstract syntax tree `j`, `none` is a body that
  is not valid JSON (text-level lexing is abstracted away).
* The network is modelled by passing the outcome of each outbound call as
  an explicit argument (`Except` carrying the transport error text).
* Go's `encoding/json` unmarshalling into the two response structs is
  embedded field by field: unknown object keys are ignored, `null` leaves
  the current value, absent fields keep the zero value, a type mismatch
  is an error, later duplicate keys overwrite earlier ones.
* The process-local timezone used by `time.Unix` is modelled as a fixed
  UTC offset in seconds, passed as the `off` argument.
* A Go runtime panic (index out of range, nil-pointer dereference) is the
  `panic` constructor of the result types below.
-/

namespace Weather

/-- JSON abstract syntax trees, numbers as rationals. -/
inductive Json : Type where
  | null : Json
  | bool (b : Bool) : Json
  | num (q : ℚ) : Json
  | str (s : String) : Json
  | arr (elems : List Json) : Json
  | obj (fields : List (String × Json)) : Json
deriving Repr

/-- Go struct `LatLong` (main.go:20-23). -/
structure LatLong : Type where
  latitude : ℚ
  longitude : ℚ
deriving DecidableEq, Repr

/-- Go struct `GeoResponse` (main.go:16-18). -/
structure GeoResponse : Type where
  results : List LatLong
deriving DecidableEq, Repr

/-- Go struct `Forecast` (main.go:30-33). -/
structure Forecast : Type where
  Date : String
  Temperature : String
deriving DecidableEq, Repr

/-- Go struct `WeatherDisplay` (main.go:25-28). -/
structure WeatherDisplay : Type where
  City : String
  Forecasts : List Forecast
deriving DecidableEq, Repr

/-- The anonymous `Hourly` struct inside `WeatherResponse` (main.go:39-42). -/
structure Hourly : Type where
  time : List Int
  temperature_2m : List ℚ
deriving DecidableEq, Repr

/-- Go struct `WeatherResponse` (main.go:35-43). -/
structure WeatherResponse : Type where
  latitude : ℚ
  longitude : ℚ
  timezone : String
  hourly : Hourly
deriving DecidableEq, Repr

/-- Go zero value of `LatLong`. -/
def LatLong.zero : LatLong := ⟨0, 0⟩

/-- Go zero value of `GeoResponse` (a nil slice is the empty list). -/
def GeoResponse.zero : GeoResponse := ⟨[]⟩

/-- Go zero value of `WeatherResponse`. -/
def WeatherResponse.zero : WeatherResponse := ⟨0, 0, "", ⟨[], []⟩⟩

/-- `encoding/json` unmarshalling into a `float64` field: `null` keeps the
current value, a number is taken as is, anything else is a type error. -/
def unmF64 (cur : ℚ) : Json → Except String ℚ
  | .null => .ok cur
  | .num q => .ok q
  | _ => .error "cannot unmarshal value into Go value of type float64"

/-- `encoding/json` unmarshalling into a `string` field. -/
def unmStr (cur : String) : Json → Except String String
  | .null => .ok cur
  | .str s => .ok s
  | _ => .error "cannot unmarshal value into Go value of type string"

/-- `encoding/json` unmarshalling into an `int64` field: the number must be
integral and fit in 64 signed bits. -/
def unmI64 (cur : Int) : Json → Except String Int
  | .null => .ok cur
  | .num q =>
      if q.den = 1 ∧ -(2 ^ 63) ≤ q.num ∧ q.num < 2 ^ 63 then .ok q.num
      else .error "cannot unmarshal number into Go value of type int64"
  | _ => .error "cannot unmarshal value into Go value of type int64"

/-- Element-wise unmarshalling of a JSON array into `[]int64`. -/
def unmI64Elems : List Json → Except String (List Int)
  | [] => .ok []
  | j :: rest => do
      let x ← unmI64 0 j
      let xs ← unmI64Elems rest
      .ok (x :: xs)

/-- `encoding/json` unmarshalling into a `[]int64` field. -/
def unmI64Slice (cur : List Int) : Json → Except String (List Int)
  | .null => .ok cur
  | .arr xs => unmI64Elems xs
  | _ => .error "cannot unmarshal value into Go value of type []int64"

/-- Element-wise unmarshalling of a JSON array into `[]float64`. -/
def unmF64Elems : List Json → Except String (List ℚ)
  | [] => .ok []
  | j :: rest => do
      let x ← unmF64 0 j
      let xs ← unmF64Elems rest
      .ok (x :: xs)

/-- `encoding/json` unmarshalling into a `[]float64` field. -/
def unmF64Slice (cur : List ℚ) : Json → Except String (List ℚ)
  | .null => .ok cur
  | .arr xs => unmF64Elems xs
  | _ => .error "cannot unmarshal value into Go value of type []float64"

/-- One step of Go's simple case folding, restricted to what can fold onto
an ASCII letter: ASCII uppercase folds to lowercase, KELVIN SIGN (U+212A)
folds to `k`, LATIN SMALL LETTER LONG S (U+017F) folds to `s`; every other
character is left alone. Against the ASCII field names below this is
exactly Unicode simple case folding, since no other rune folds to an ASCII
letter. -/
def foldChar (c : Char) : Char :=
  if 'A' ≤ c ∧ c ≤ 'Z' then Char.ofNat (c.toNat + 32)
  else if c.toNat = 0x212A then 'k'
  else if c.toNat = 0x17F then 's'
  else c

/-- `strings.EqualFold`, the comparison `encoding/json` uses to match an
object key against a struct field name when no exact match exists. Go
prefers an exact match over a case-insensitive one, but the field names of
each struct below are pairwise fold-distinct, so a key fold-matches at
most one field and checking fold-equality field by field is equivalent. -/
def strEqFold (a b : String) : Bool :=
  a.data.map foldChar == b.data.map foldChar

/-- Field loop of unmarshalling a JSON object into `LatLong`: keys match a
field name case-insensitively (Go's `EqualFold`), other keys are ignored. -/
def unmLatLongFields (cur : LatLong) : List (String × Json) → Except String LatLong
  | [] => .ok cur
  | (k, v) :: rest =>
      if strEqFold k "latitude" then do
        let x ← unmF64 cur.latitude v
        unmLatLongFields { cur with latitude := x } rest
      else if strEqFold k "longitude" then do
        let x ← unmF64 cur.longitude v
        unmLatLongFields { cur with longitude := x } rest
      else unmLatLongFields cur rest

/-- `encoding/json` unmarshalling into a `LatLong` value. -/
def unmLatLong (cur : LatLong) : Json → Except String LatLong
  | .null => .ok cur
  | .obj fs => unmLatLongFields cur fs
  | _ => .error "cannot unmarshal value into Go value of type main.LatLong"

/-- Element-wise unmarshalling of a JSON array into `[]LatLong`. -/
def unmLatLongElems : List Json → Except String (List LatLong)
  | [] => .ok []
  | j :: rest => do
      let x ← unmLatLong LatLong.zero j
      let xs ← unmLatLongElems rest
      .ok (x :: xs)

/-- `encoding/json` unmarshalling into a `[]LatLong` field. -/
def unmLatLongSlice (cur : List LatLong) : Json → Except String (List LatLong)
  | .null => .ok cur
  | .arr xs => unmLatLongElems xs
  | _ => .error "cannot unmarshal value into Go value of type []main.LatLong"

/-- Field loop of unmarshalling a JSON object into `GeoResponse`. -/
def unmGeoResponseFields (cur : GeoResponse) : List (String × Json) → Except String GeoResponse
  | [] => .ok cur
  | (k, v) :: rest =>
      if strEqFold k "results" then do
        let rs ← unmLatLongSlice cur.results v
        unmGeoResponseFields ⟨rs⟩ rest
      else unmGeoResponseFields cur rest

/-- `encoding/json` unmarshalling into a `GeoResponse` value
(main.go:105-108 decodes the geocoder body this way). -/
def unmGeoResponse (cur : GeoResponse) : Json → Except String GeoResponse
  | .null => .ok cur
  | .obj fs => unmGeoResponseFields cur fs
  | _ => .error "cannot unmarshal value into Go value of type main.GeoResponse"

/-- Field loop of unmarshalling a JSON object into the `Hourly` struct. -/
def unmHourlyFields (cur : Hourly) : List (String × Json) → Except String Hourly
  | [] => .ok cur
  | (k, v) :: rest =>
      if strEqFold k "time" then do
        let xs ← unmI64Slice cur.time v
        unmHourlyFields { cur with time := xs } rest
      else if strEqFold k "temperature_2m" then do
        let xs ← unmF64Slice cur.temperature_2m v
        unmHourlyFields { cur with temperature_2m := xs } rest
      else unmHourlyFields cur rest

/-- `encoding/json` unmarshalling into an `Hourly` value. -/
def unmHourly (cur : Hourly) : Json → Except String Hourly
  | .null => .ok cur
  | .obj fs => unmHourlyFields cur fs
  | _ => .error "cannot unmarshal value into Go value of type struct Hourly"

/-- Field loop of unmarshalling a JSON object into `WeatherResponse`. -/
def unmWeatherResponseFields (cur : WeatherResponse) :
    List (String × Json) → Except String WeatherResponse
  | [] => .ok cur
  | (k, v) :: rest =>
      if strEqFold k "latitude" then do
        let x ← unmF64 cur.latitude v
        unmWeatherResponseFields { cur with latitude := x } rest
      else if strEqFold k "longitude" then do
        let x ← unmF64 cur.longitude v
        unmWeatherResponseFields { cur with longitude := x } rest
      else if strEqFold k "timezone" then do
        let x ← unmStr cur.timezone v
        unmWeatherResponseFields { cur with timezone := x } rest
      else if strEqFold k "hourly" then do
        let x ← unmHourly cur.hourly v
        unmWeatherResponseFields { cur with hourly := x } rest
      else unmWeatherResponseFields cur rest

/-- `encoding/json` unmarshalling into a `WeatherResponse` value
(main.go:132-135 decodes the raw forecast payload this way). -/
def unmWeatherResponse (cur : WeatherResponse) : Json → Except String WeatherResponse
  | .null => .ok cur
  | .obj fs => unmWeatherResponseFields cur fs
  | _ => .error "cannot unmarshal value into Go value of type main.WeatherResponse"

/-- Zero-pad a number to two digits, as `time.Format` does for `15` and `04`. -/
def pad2 (n : Nat) : String :=
  if n < 10 then "0" ++ toString n else toString n

/-- English weekday abbreviations used by Go's `time.Format` layout `Mon`. -/
def weekdayNames : List String := ["Sun", "Mon", "Tue", "Wed", "Thu", "Fri", "Sat"]

/-- `time.Unix(t, 0).Format("Mon 15:04")` (main.go:139-141): the Unix
timestamp shifted by the local UTC offset, rendered as the English weekday
abbreviation, a space, and the zero-padded 24-hour clock `HH:MM`.
1 January 1970 was a Thursday, index 4 of `weekdayNames`. -/
def goFormatMonHHMM (off t : Int) : String :=
  let lt := t + off
  let days := lt.fdiv 86400
  let wd := ((days.emod 7) + 4).emod 7
  let sod := (lt.emod 86400).toNat
  (weekdayNames.getD wd.toNat "") ++ " " ++ pad2 (sod / 3600) ++ ":" ++ pad2 (sod % 3600 / 60)

/-- Round a rational to the nearest integer, ties to even, echoing the
rounding `strconv` performs when formatting with fixed precision. -/
def roundHalfEven (q : ℚ) : Int :=
  let f := q.floor
  let r := q - f
  if r < 1 / 2 then f
  else if r > 1 / 2 then f + 1
  else if f % 2 = 0 then f else f + 1

/-- `fmt.Sprintf("%.1f", q)`: the value rendered with exactly one decimal
digit, a leading minus sign when negative. -/
def goFmt1 (q : ℚ) : String :=
  let n := (roundHalfEven (|q| * 10)).toNat
  (if q < 0 then "-" else "") ++ toString (n / 10) ++ "." ++ toString (n % 10)

/-- The temperature label of main.go:142, `fmt.Sprintf("%.1fÂ°C", temp)`.
The suffix is the source file's literal bytes C3 82 C2 B0 43 (`Â°C`). -/
def sprintfTemp (q : ℚ) : String := goFmt1 q ++ "Â°C"

/-- One iteration's `Forecast` value (main.go:139-143). -/
def mkForecast (off : Int) (t : Int) (temp : ℚ) : Forecast :=
  ⟨goFormatMonHHMM off t, sprintfTemp temp⟩

/-- Result of a Go computation that may panic at runtime. -/
inductive GoResult (α : Type) : Type where
  | panic : GoResult α
  | err (msg : String) : GoResult α
  | ok (val : α) : GoResult α
deriving DecidableEq, Repr

/-- The loop of main.go:137-145: iterate over `Hourly.Time` with index `i`,
reading `Temperature2m[i]`; a missing index is Go's index-out-of-range
panic, modelled as `none`. -/
def buildForecasts (off : Int) (temps : List ℚ) : Nat → List Int → Option (List Forecast)
  | _, [] => some []
  | i, t :: rest =>
      match temps.get? i with
      | none => none
      | some temp => (buildForecasts off temps (i + 1) rest).map (mkForecast off t temp :: ·)

/-- The part of `extractWeatherData` after JSON decoding succeeded
(main.go:137-149). -/
def extractFromResponse (off : Int) (city : String) (wr : WeatherResponse) :
    GoResult WeatherDisplay :=
  match buildForecasts off wr.hourly.temperature_2m 0 wr.hourly.time with
  | none => .panic
  | some fs => .ok ⟨city, fs⟩

/-- `extractWeatherData` (main.go:131-150): unmarshal the raw payload into a
`WeatherResponse`, wrapping a decode failure, then build the display rows. -/
def extractWeatherData (off : Int) (city : String) (raw : Option Json) :
    GoResult WeatherDisplay :=
  match raw with
  | none => .err "error decoding weather response: invalid JSON"
  | some j =>
      match unmWeatherResponse WeatherResponse.zero j with
      | .error e => .err ("error decoding weather response: " ++ e)
      | .ok wr => extractFromResponse off city wr

/-- `getLatLong` (main.go:97-114) with the network modelled as the outcome
of the outbound GET: transport failure, then JSON decoding into
`GeoResponse`, then `len(Results) < 1` check, else the first result. -/
def getLatLong (city : String) (net : Except String Json) : Except String LatLong :=
  match net with
  | .error e => .error ("error making request to Geo API: " ++ e)
  | .ok body =>
      match unmGeoResponse GeoResponse.zero body with
      | .error e => .error ("error decoding response: " ++ e)
      | .ok resp =>
          match resp.results with
          | [] => .error "no results found"
          | r :: _ => .ok r

/-- `getWeather` (main.go:116-129): transport failure, body-read failure,
else the raw body (an `Option Json`, see the conventions above). -/
def getWeather (ll : LatLong) (net : Except String (Except String (Option Json))) :
    Except String (Option Json) :=
  match net with
  | .error e => .error ("error making request to Weather API: " ++ e)
  | .ok (.error e) => .error ("error reading response body " ++ e)
  | .ok (.ok body) => .ok body

/-- Outcome of one HTTP request: a response with status and body, or a
runtime panic inside the handler. -/
inductive HttpOutcome : Type where
  | resp (status : Nat) (body : String) : HttpOutcome
  | panic : HttpOutcome
deriving DecidableEq, Repr

/-- `handler` (main.go:62-95). Arguments model the request and the world:
`path`, whether `ParseForm` succeeded, the `city` form value, the two
network outcomes, the result of `template.ParseFiles("views/weather.html")`
(a successful parse renders a `WeatherDisplay` to HTML), and the local UTC
offset. Line 93 discards the parse error; `tmpl.Execute` on the resulting
nil template is a nil-pointer dereference, modelled as `panic`. -/
def handler (path : String) (parseFormOk : Bool) (city : String)
    (geoNet : Except String Json)
    (wNet : Except String (Except String (Option Json)))
    (tmplParse : Except String (WeatherDisplay → String)) (off : Int) : HttpOutcome :=
  if path ≠ "/weather" then .resp 404 "404 page not found"
  else if ¬parseFormOk then .resp 500 "could not parse the form"
  else
    match getLatLong city geoNet with
    | .error _ => .resp 500 "internal server error"
    | .ok ll =>
        match getWeather ll wNet with
        | .error e => .resp 500 e
        | .ok raw =>
            match extractWeatherData off city raw with
            | .panic => .panic
            | .err e => .resp 500 e
            | .ok data =>
                match tmplParse with
                | .error _ => .panic
                | .ok render => .resp 200 (render data)

/-- `home` (main.go:51-60): serve `views/index.html` verbatim, or a 500 if
the file cannot be read. The file system is the `indexFile` argument. -/
def home (indexFile : Option String) : HttpOutcome :=
  match indexFile with
  | none => .resp 500 "failed to open file"
  | some content => .resp 200 content

/-- The two registered handlers (main.go:46-47). -/
inductive Route : Type where
  | home : Route
  | weather : Route
deriving DecidableEq, Repr

/-- Route selection of Go's `http.ServeMux` for the patterns `"/"` and
`"/weather"` (main.go:46-47): the pattern `"/weather"`, having no trailing
slash, matches only that exact path; every other path falls to `"/"`. -/
def muxRoute (path : String) : Route :=
  if path = "/weather" then .weather else .home

/-- One full request against the server: route, then run the handler. -/
def serve (path : String) (indexFile : Option String) (parseFormOk : Bool) (city : String)
    (geoNet : Except String Json)
    (wNet : Except String (Except String (Option Json)))
    (tmplParse : Except String (WeatherDisplay → String)) (off : Int) : HttpOutcome :=
  match muxRoute path with
  | .home => home indexFile
  | .weather => handler path parseFormOk city geoNet wNet tmplParse off

/-- The temperature 12.3 of the spec's end-to-end example. -/
def temp12_3 : ℚ := ⟨123, 10, by decide, by decide⟩

/-- The spec's end-to-end example forecast payload:
`{"hourly":{"time":[1700000000],"temperature_2m":[12.3]}}`. -/
def examplePayload : Json :=
  .obj [("hourly", .obj [("time", .arr [.num 1700000000]),
                         ("temperature_2m", .arr [.num temp12_3])])]

/-- A payload whose temperature sequence is shorter than its timestamp
sequence: `{"hourly":{"time":[1700000000],"temperature_2m":[]}}`. -/
def mismatchedPayload : Json :=
  .obj [("hourly", .obj [("time", .arr [.num 1700000000]),
                         ("temperature_2m", .arr [])])]

/-- A geocoder body with two results,
`{"results":[{"latitude":1,"longitude":2},{}]}`. -/
def geoJson1 : Json :=
  .obj [("results", .arr [.obj [("latitude", .num 1), ("longitude", .num 2)], .obj []])]

/-- A geocoder body with an empty result list, `{"results":[]}`. -/
def emptyResultsJson : Json := .obj [("results", .arr [])]

/-- A forecast payload with an empty time series,
`{"hourly":{"time":[],"temperature_2m":[5]}}`. -/
def emptyTimesPayload : Json :=
  .obj [("hourly", .obj [("time", .arr []), ("temperature_2m", .arr [.num 5])])]

unseal Rat.mul Rat.add Rat.sub Rat.inv

/-- The loop of main.go:138-145 on a time sequence no longer than the
temperature sequence is total and zips the two sequences pointwise. -/
theorem buildForecasts_eq_zipWith (off : Int) (temps : List ℚ) :
    ∀ (times : List Int) (k : Nat), k + times.length ≤ temps.length →
      buildForecasts off temps k times =
        some (List.zipWith (mkForecast off) times (temps.drop k))
  | [], _, _ => by simp [buildForecasts]
  | t :: rest, k, h => by
      have hk : k < temps.length := by
        simp only [List.length_cons] at h
        omega
      have hrec := buildForecasts_eq_zipWith off temps rest (k + 1) (by
        simp only [List.length_cons] at h
        omega)
      have hd : temps.drop k = temps[k] :: temps.drop (k + 1) :=
        List.drop_eq_getElem_cons hk
      have hg : temps.get? k = some temps[k] := by
        rw [List.get?_eq_getElem?]
        exact List.getElem?_eq_getElem hk
      calc buildForecasts off temps k (t :: rest)
          = (buildForecasts off temps (k + 1) rest).map (mkForecast off t temps[k] :: ·) := by
            simp only [buildForecasts, hg]
        _ = some (mkForecast off t temps[k] ::
              List.zipWith (mkForecast off) rest (temps.drop (k + 1))) := by
            rw [hrec, Option.map_some']
        _ = some (List.zipWith (mkForecast off) (t :: rest) (temps.drop k)) := by
            rw [hd, List.zipWith_cons_cons]

/-- A `WeatherResponse` field loop over keys none of which fold-matches a
field name changes nothing. -/
theorem unmWeatherResponseFields_skip :
    ∀ (cur : WeatherResponse) (fs : List (String × Json)),
      (∀ p ∈ fs, strEqFold p.1 "latitude" ≠ true ∧ strEqFold p.1 "longitude" ≠ true ∧
        strEqFold p.1 "timezone" ≠ true ∧ strEqFold p.1 "hourly" ≠ true) →
      unmWeatherResponseFields cur fs = .ok cur
  | _, [], _ => rfl
  | cur, (k, v) :: rest, h => by
      have hk := h (k, v) (List.mem_cons_self _ _)
      have hrest := unmWeatherResponseFields_skip cur rest
        (fun p hp => h p (List.mem_cons_of_mem _ hp))
      simp only [unmWeatherResponseFields]
      rw [if_neg hk.1, if_neg hk.2.1, if_neg hk.2.2.1, if_neg hk.2.2.2]
      exact hrest

/-- Unfolding of `handler` once the path check and form parse passed. -/
theorem handler_run (city : String) (geoNet : Except String Json)
    (wNet : Except String (Except String (Option Json)))
    (tmplParse : Except String (WeatherDisplay → String)) (off : Int) :
    handler "/weather" true city geoNet wNet tmplParse off =
      match getLatLong city geoNet with
      | .error _ => .resp 500 "internal server error"
      | .ok ll =>
          match getWeather ll wNet with
          | .error e => .resp 500 e
          | .ok raw =>
              match extractWeatherData off city raw with
              | .panic => .panic
              | .err e => .resp 500 e
              | .ok data =>
                  match tmplParse with
                  | .error _ => .panic
                  | .ok render => .resp 200 (render data) := rfl

/-- Claim C1 (failing input): on the payload
`{"hourly":{"time":[1700000000],"temperature_2m":[]}}`, whose temperature
sequence is shorter than its timestamp sequence, `extractWeatherData` does
not fail with an error: it performs the out-of-bounds access
`Temperature2m[0]` and panics. -/
theorem extract_panics_on_short_temps :
    extractWeatherData 0 "Paris" (some mismatchedPayload) = .panic := rfl

/-- Claim C2 (counterexample): the request path `/bogus`, which is neither
`/` nor `/weather`, is answered with status 200 and the landing page, not
with a not-found status, because the mux pattern `/` catches it. -/
theorem serve_bogus_not_404 :
    serve "/bogus" (some "LANDING") true "" (.error "") (.error "") (.error "") 0 =
      .resp 200 "LANDING" ∧ (200 : Nat) ≠ 404 := ⟨rfl, by decide⟩

/-- Claim C2 (amended): every request whose path is not `/weather` is
routed to the `home` handler, which serves the landing page with status 200
or fails with status 500; it never yields a not-found status. -/
theorem serve_unknown_path_serves_home :
    ∀ (path : String) (idx : Option String) (pf : Bool) (city : String)
      (geoNet : Except String Json) (wNet : Except String (Except String (Option Json)))
      (tp : Except String (WeatherDisplay → String)) (off : Int),
      path ≠ "/weather" →
      serve path idx pf city geoNet wNet tp off = home idx ∧
      ∀ s b, home idx = .resp s b → s ≠ 404 := by
  intro path idx pf city geoNet wNet tp off hp
  constructor
  · simp [serve, muxRoute, hp]
  · intro s b hs
    cases idx with
    | none =>
        simp only [home, HttpOutcome.resp.injEq] at hs
        omega
    | some c =>
        simp only [home, HttpOutcome.resp.injEq] at hs
        omega

/-- Claim C2 (witness): the amended statement at path `/bogus`. -/
theorem serve_unknown_path_serves_home_witness :
    serve "/bogus" (some "LANDING") true "Paris" (.error "g") (.error "w") (.error "t") 0 =
      home (some "LANDING") ∧
    ∀ s b, home (some "LANDING") = HttpOutcome.resp s b → s ≠ 404 :=
  serve_unknown_path_serves_home "/bogus" (some "LANDING") true "Paris" (.error "g")
    (.error "w") (.error "t") 0 (by decide)

/-- Claim C3 (counterexample): the payload `{}` is valid JSON lacking every
expected field, yet `extractWeatherData` succeeds with an empty forecast
list instead of failing with a DecodeError. -/
theorem extract_missing_fields_succeeds :
    extractWeatherData 0 "Paris" (some (.obj [])) = .ok ⟨"Paris", []⟩ ∧
    ∀ msg, GoResult.ok (⟨"Paris", []⟩ : WeatherDisplay) ≠ .err msg :=
  ⟨rfl, fun _ h => GoResult.noConfusion h⟩

/-- Claim C3 (amended): a valid JSON object payload none of whose keys
matches an expected field — matching case-insensitively with Go's
`EqualFold`, as `encoding/json` does — decodes to the zero value, so
`extractWeatherData` succeeds with an empty forecast list rather than
failing with a DecodeError; a payload that is not valid JSON does fail
with a DecodeError. -/
theorem extract_unknown_fields_zero_value :
    ∀ (off : Int) (city : String) (fs : List (String × Json)),
      (∀ p ∈ fs, strEqFold p.1 "latitude" ≠ true ∧ strEqFold p.1 "longitude" ≠ true ∧
        strEqFold p.1 "timezone" ≠ true ∧ strEqFold p.1 "hourly" ≠ true) →
      extractWeatherData off city (some (.obj fs)) = .ok ⟨city, []⟩ ∧
      extractWeatherData off city none = .err "error decoding weather response: invalid JSON" := by
  intro off city fs h
  refine ⟨?_, rfl⟩
  simp only [extractWeatherData, unmWeatherResponse, unmWeatherResponseFields_skip _ fs h]
  rfl

/-- Claim C3 (witness): the amended statement at the one-unknown-field
payload `{"results": null}`. -/
theorem extract_unknown_fields_zero_value_witness :
    extractWeatherData 0 "Paris" (some (.obj [("results", .null)])) = .ok ⟨"Paris", []⟩ ∧
    extractWeatherData 0 "Paris" none = .err "error decoding weather response: invalid JSON" :=
  extract_unknown_fields_zero_value 0 "Paris" [("results", .null)] (by decide)

/-- Claim C4 (counterexample): when the forecast client fails with
transport error `boom`, the handler surfaces the underlying wrapped error
text, not the generic `internal server error` message. -/
theorem handler_weather_error_not_generic :
    handler "/weather" true "Paris" (.ok geoJson1) (.error "boom") (.error "t") 0 =
      .resp 500 "error making request to Weather API: boom" ∧
    ("error making request to Weather API: boom" : String) ≠ "internal server error" :=
  ⟨rfl, by decide⟩

/-- Claim C4 (amended): on a `/weather` request, a geocoder-client failure
yields status 500 with the generic body `internal server error`, while a
forecast-client failure and a formatter failure both yield status 500 with
the underlying error message as the body. -/
theorem handler_error_message_policy :
    ∀ (city : String) (geoNet : Except String Json)
      (wNet : Except String (Except String (Option Json)))
      (tp : Except String (WeatherDisplay → String)) (off : Int),
      (∀ g, getLatLong city geoNet = .error g →
        handler "/weather" true city geoNet wNet tp off = .resp 500 "internal server error") ∧
      (∀ ll e, getLatLong city geoNet = .ok ll → getWeather ll wNet = .error e →
        handler "/weather" true city geoNet wNet tp off = .resp 500 e) ∧
      (∀ ll raw e, getLatLong city geoNet = .ok ll → getWeather ll wNet = .ok raw →
        extractWeatherData off city raw = .err e →
        handler "/weather" true city geoNet wNet tp off = .resp 500 e) := by
  intro city geoNet wNet tp off
  refine ⟨fun g hg => ?_, fun ll e h1 h2 => ?_, fun ll raw e h1 h2 h3 => ?_⟩
  · simp only [handler_run, hg]
  · simp only [handler_run, h1, h2]
  · simp only [handler_run, h1, h2, h3]

/-- Claim C4 (witness): the amended statement at concrete failures of each
of the three pipeline stages. -/
theorem handler_error_message_policy_witness :
    handler "/weather" true "Paris" (.error "g") (.error "w") (.error "t") 0 =
      .resp 500 "internal server error" ∧
    handler "/weather" true "Paris" (.ok geoJson1) (.error "boom2") (.error "t") 0 =
      .resp 500 "error making request to Weather API: boom2" ∧
    handler "/weather" true "Paris" (.ok geoJson1) (.ok (.ok none)) (.error "t") 0 =
      .resp 500 "error decoding weather response: invalid JSON" :=
  ⟨(handler_error_message_policy "Paris" (.error "g") (.error "w") (.error "t") 0).1
      "error making request to Geo API: g" rfl,
   (handler_error_message_policy "Paris" (.ok geoJson1) (.error "boom2") (.error "t") 0).2.1
      ⟨1, 2⟩ "error making request to Weather API: boom2" rfl rfl,
   (handler_error_message_policy "Paris" (.ok geoJson1) (.ok (.ok none)) (.error "t") 0).2.2
      ⟨1, 2⟩ none "error decoding weather response: invalid JSON" rfl rfl rfl⟩

/-- Claim C5 (counterexample): on the spec's end-to-end example payload the
formatter's temperature label is `12.3Â°C` — the source's literal suffix
bytes C3 82 C2 B0 43 — which differs from the claimed label `12.3°C`. -/
theorem extract_example_label_mojibake :
    extractWeatherData 0 "Paris" (some examplePayload) =
      .ok ⟨"Paris", [⟨goFormatMonHHMM 0 1700000000, "12.3Â°C"⟩]⟩ ∧
    ("12.3Â°C" : String) ≠ "12.3°C" := ⟨rfl, by decide⟩

/-- Claim C5 (amended): for every index i of a well-formed decoded forecast
series, the formatter's pair at i has as date label the Unix timestamp at i
rendered in local time as weekday abbreviation plus 24-hour `HH:MM`
(`goFormatMonHHMM`), and as temperature label the temperature at i
formatted to one decimal place followed by the suffix `Â°C` (the source's
literal bytes; not the claimed `°C`). -/
theorem extract_entry_labels :
    ∀ (off : Int) (city : String) (j : Json) (wr : WeatherResponse),
      unmWeatherResponse WeatherResponse.zero j = .ok wr →
      ∀ (hlen : wr.hourly.time.length = wr.hourly.temperature_2m.length)
        (i : Nat) (hi : i < wr.hourly.time.length),
      ∃ fcs, extractWeatherData off city (some j) = GoResult.ok ⟨city, fcs⟩ ∧
        fcs[i]? = some ⟨goFormatMonHHMM off (wr.hourly.time.get ⟨i, hi⟩),
          goFmt1 (wr.hourly.temperature_2m.get ⟨i, hlen ▸ hi⟩) ++ "Â°C"⟩ := by
  intro off city j wr hun hlen i hi
  refine ⟨List.zipWith (mkForecast off) wr.hourly.time wr.hourly.temperature_2m, ?_, ?_⟩
  · simp only [extractWeatherData, hun, extractFromResponse]
    rw [buildForecasts_eq_zipWith off wr.hourly.temperature_2m wr.hourly.time 0 (by omega),
      List.drop_zero]
  · have hz : i < (List.zipWith (mkForecast off) wr.hourly.time
        wr.hourly.temperature_2m).length := by
      rw [List.length_zipWith]
      omega
    rw [List.getElem?_eq_getElem hz, List.getElem_zipWith]
    simp [mkForecast, sprintfTemp, List.get_eq_getElem]

/-- Claim C5 (witness): the amended statement at the end-to-end example,
index 0. -/
theorem extract_entry_labels_witness :
    ∃ fcs, extractWeatherData 0 "Paris" (some examplePayload) = GoResult.ok ⟨"Paris", fcs⟩ ∧
      fcs[0]? = some ⟨goFormatMonHHMM 0 1700000000, goFmt1 temp12_3 ++ "Â°C"⟩ :=
  extract_entry_labels 0 "Paris" examplePayload ⟨0, 0, "", ⟨[1700000000], [temp12_3]⟩⟩
    rfl rfl 0 (by decide)

/-- Claim C6: for every valid JSON geocoder body whose decoded results list
is nonempty, `getLatLong` returns exactly the first result's coordinate. -/
theorem getLatLong_first_result :
    ∀ (city : String) (j : Json) (resp : GeoResponse) (r : LatLong) (rest : List LatLong),
      unmGeoResponse GeoResponse.zero j = .ok resp → resp.results = r :: rest →
      getLatLong city (.ok j) = .ok r := by
  intro city j resp r rest h1 h2
  simp only [getLatLong, h1, h2]

/-- Claim C6 (witness): on `{"results":[{"latitude":1,"longitude":2},{}]}`
the geocoder client returns the first coordinate (1, 2). -/
theorem getLatLong_first_result_witness :
    getLatLong "Paris" (.ok geoJson1) = .ok ⟨1, 2⟩ :=
  getLatLong_first_result "Paris" geoJson1 ⟨[⟨1, 2⟩, ⟨0, 0⟩]⟩ ⟨1, 2⟩ [⟨0, 0⟩] rfl rfl

/-- Claim C7: for every valid JSON geocoder body whose decoded results list
is empty, `getLatLong` fails with the NotFoundError `no results found` and
returns no coordinate. -/
theorem getLatLong_empty_results :
    ∀ (city : String) (j : Json) (resp : GeoResponse),
      unmGeoResponse GeoResponse.zero j = .ok resp → resp.results = [] →
      getLatLong city (.ok j) = .error "no results found" := by
  intro city j resp h1 h2
  simp only [getLatLong, h1, h2]

/-- Claim C7 (witness): the statement at `{"results":[]}`. -/
theorem getLatLong_empty_results_witness :
    getLatLong "Nowhere" (.ok emptyResultsJson) = .error "no results found" :=
  getLatLong_empty_results "Nowhere" emptyResultsJson ⟨[]⟩ rfl rfl

/-- Claim C8: for every decoded forecast payload whose timestamp and
temperature sequences have equal length, `extractWeatherData` succeeds with
the pointwise zip of the two sequences: as many entries as timestamps, the
entry at index i built from the timestamp and temperature at index i. -/
theorem extract_equal_lengths_zips :
    ∀ (off : Int) (city : String) (j : Json) (wr : WeatherResponse),
      unmWeatherResponse WeatherResponse.zero j = .ok wr →
      wr.hourly.time.length = wr.hourly.temperature_2m.length →
      extractWeatherData off city (some j) =
        .ok ⟨city, List.zipWith (mkForecast off) wr.hourly.time wr.hourly.temperature_2m⟩ ∧
      (List.zipWith (mkForecast off) wr.hourly.time wr.hourly.temperature_2m).length =
        wr.hourly.time.length ∧
      ∀ (i : Nat) (hi : i < wr.hourly.time.length) (hi2 : i < wr.hourly.temperature_2m.length),
        (List.zipWith (mkForecast off) wr.hourly.time wr.hourly.temperature_2m)[i]? =
          some (mkForecast off (wr.hourly.time.get ⟨i, hi⟩)
            (wr.hourly.temperature_2m.get ⟨i, hi2⟩)) := by
  intro off city j wr hun hlen
  refine ⟨?_, ?_, ?_⟩
  · simp only [extractWeatherData, hun, extractFromResponse]
    rw [buildForecasts_eq_zipWith off wr.hourly.temperature_2m wr.hourly.time 0 (by omega),
      List.drop_zero]
  · rw [List.length_zipWith]
    omega
  · intro i hi hi2
    have hz : i < (List.zipWith (mkForecast off) wr.hourly.time
        wr.hourly.temperature_2m).length := by
      rw [List.length_zipWith]
      omega
    rw [List.getElem?_eq_getElem hz, List.getElem_zipWith]
    simp [List.get_eq_getElem]

/-- Claim C8 (witness): the statement at the end-to-end example payload. -/
theorem extract_equal_lengths_zips_witness :
    extractWeatherData 0 "Paris" (some examplePayload) =
      .ok ⟨"Paris", List.zipWith (mkForecast 0) [1700000000] [temp12_3]⟩ ∧
    (List.zipWith (mkForecast 0) [1700000000] [temp12_3]).length =
      ([1700000000] : List Int).length ∧
    ∀ (i : Nat) (hi : i < ([1700000000] : List Int).length)
      (hi2 : i < ([temp12_3] : List ℚ).length),
      (List.zipWith (mkForecast 0) [1700000000] [temp12_3])[i]? =
        some (mkForecast 0 (([1700000000] : List Int).get ⟨i, hi⟩)
          (([temp12_3] : List ℚ).get ⟨i, hi2⟩)) :=
  extract_equal_lengths_zips 0 "Paris" examplePayload ⟨0, 0, "", ⟨[1700000000], [temp12_3]⟩⟩
    rfl rfl

/-- Claim C9: for every valid forecast payload whose decoded timestamp
sequence is empty, `extractWeatherData` succeeds with a zero-entry forecast
list tagged with the given city name, and does not return an error. -/
theorem extract_empty_times_ok :
    ∀ (off : Int) (city : String) (j : Json) (wr : WeatherResponse),
      unmWeatherResponse WeatherResponse.zero j = .ok wr →
      wr.hourly.time = [] →
      extractWeatherData off city (some j) = .ok ⟨city, []⟩ := by
  intro off city j wr hun ht
  simp only [extractWeatherData, hun, extractFromResponse, ht, buildForecasts]

/-- Claim C9 (witness): the statement at
`{"hourly":{"time":[],"temperature_2m":[5]}}`. -/
theorem extract_empty_times_ok_witness :
    extractWeatherData 0 "Paris" (some emptyTimesPayload) = .ok ⟨"Paris", []⟩ :=
  extract_empty_times_ok 0 "Paris" emptyTimesPayload ⟨0, 0, "", ⟨[], [5]⟩⟩ rfl rfl

/-- Claim C10: when parsing the weather template fails, the handler
discards the parse error (main.go:93), so a successful pipeline run does
not produce an error-status response: executing the nil template is a
nil-pointer dereference, modelled as a panic. -/
theorem handler_nil_template_panics :
    ∀ (city : String) (geoNet : Except String Json)
      (wNet : Except String (Except String (Option Json))) (off : Int) (e : String)
      (ll : LatLong) (raw : Option Json) (wd : WeatherDisplay),
      getLatLong city geoNet = .ok ll →
      getWeather ll wNet = .ok raw →
      extractWeatherData off city raw = .ok wd →
      handler "/weather" true city geoNet wNet (.error e) off = .panic := by
  intro city geoNet wNet off e ll raw wd h1 h2 h3
  simp only [handler_run, h1, h2, h3]

/-- Claim C10 (witness): a run in which all three stages succeed but the
template parse failed ends in the nil-template panic. -/
theorem handler_nil_template_panics_witness :
    handler "/weather" true "Paris" (.ok geoJson1) (.ok (.ok (some (.obj []))))
      (.error "no file") 0 = .panic :=
  handler_nil_template_panics "Paris" (.ok geoJson1) (.ok (.ok (some (.obj [])))) 0 "no file"
    ⟨1, 2⟩ (some (.obj [])) ⟨"Paris", []⟩ rfl rfl rfl

end Weather
